import Mathlib

/-!
Verification of the KinematicBicycleModel repository: a shallow embedding,
over the real numbers, of the path-curve construction (src/tools.py) and of
the vehicle description with its Frenet-to-Cartesian render pipeline
(src/description.py), together with theorems settling the specification
claims.  External library calls (numpy.arange, numpy.cumsum, numpy.ediff1d,
numpy.hypot, scipy.interpolate.CubicSpline) are modelled from their
documented semantics; the cubic-spline interpolant itself is kept abstract,
as a parameter of the embedding, since no claim depends on the actual
spline coefficients.
-/

namespace KBM

noncomputable section

open scoped Classical

/-- Python exceptions distinguished by the code under verification:
scipy raises ValueError on a bad knot array, numpy.arange raises
ZeroDivisionError on a zero step. -/
inductive PyError
  | valueError (msg : String)
  | zeroDivisionError (msg : String)

/-- Model of numpy.hypot: Euclidean norm of a 2-vector. -/
def hypot (a b : ℝ) : ℝ := Real.sqrt (a ^ 2 + b ^ 2)

/-- Model of numpy.ediff1d: consecutive differences of a sequence. -/
def ediff1d (xs : List ℝ) : List ℝ := (xs.zip xs.tail).map fun p => p.2 - p.1

/-- Running sums of a list, starting from an accumulator. -/
def cumsumFrom (acc : ℝ) : List ℝ → List ℝ
  | [] => []
  | a :: rest => (acc + a) :: cumsumFrom (acc + a) rest

/-- Model of numpy.cumsum on a one-dimensional array. -/
def cumsum (xs : List ℝ) : List ℝ := cumsumFrom 0 xs

/-- The knot array of initialise_cubic_spline, from src/tools.py line 11:
distance = np.concatenate((np.zeros(1), np.cumsum(np.hypot(np.ediff1d(x),
np.ediff1d(y))))). -/
def distance_list (x y : List ℝ) : List ℝ :=
  0 :: cumsum (List.zipWith hypot (ediff1d x) (ediff1d y))

/-- Total chord length of a waypoint sequence: the last entry of the knot
array, distance[-1] in the source. -/
def total_chord (x y : List ℝ) : ℝ := (distance_list x y).getLastD 0

/-- Model of numpy.arange(start, stop, step): the values start + k*step for
0 <= k < ceil((stop - start) / step) (the count numpy documents); numpy
raises ZeroDivisionError when step = 0. -/
def arange (start stop step : ℝ) : Except PyError (List ℝ) :=
  if step = 0 then .error (.zeroDivisionError "division by zero")
  else .ok ((List.range (⌈(stop - start) / step⌉.toNat)).map fun k : ℕ => start + (k : ℝ) * step)

/-- Abstract interpolant returned by the scipy CubicSpline fit: its value
and its first and second derivatives, as functions of the parameter. -/
structure SplineFn where
  eval : ℝ → ℝ × ℝ
  deriv1 : ℝ → ℝ × ℝ
  deriv2 : ℝ → ℝ × ℝ

/-- Model of scipy.interpolate.CubicSpline construction, with the validation
scipy documents: the knot array must hold at least two entries and be
strictly increasing, else a ValueError is raised.  The fitted interpolant
itself is abstracted by the parameter mk, which receives the knots, the
data points and the boundary-condition mode. -/
def cubicSplineFit (mk : List ℝ → List (ℝ × ℝ) → String → SplineFn)
    (knots : List ℝ) (pts : List (ℝ × ℝ)) (bc_type : String) : Except PyError SplineFn :=
  if knots.length < 2 then .error (.valueError "x must contain at least 2 elements.")
  else if ¬ List.Chain' (· < ·) knots then
    .error (.valueError "x must be strictly increasing sequence.")
  else .ok (mk knots pts bc_type)

/-- The hint appended by initialise_cubic_spline when it re-raises a
ValueError from the spline fit (src/tools.py lines 18-20). -/
def seq_hint : String :=
  " If you are getting a sequence error, do check if your input dataset contains consecutive duplicate(s)."

/-- Embedding of initialise_cubic_spline from src/tools.py.  The resample
array s is computed before the spline fit is attempted, mirroring the order
of the source; a ValueError raised by the fit is re-raised with the
consecutive-duplicate hint appended. -/
def initialise_cubic_spline (mk : List ℝ → List (ℝ × ℝ) → String → SplineFn)
    (x y : List ℝ) (ds : ℝ) (bc_type : String) : Except PyError (SplineFn × List ℝ) :=
  let distance := distance_list x y
  let points := x.zip y
  match arange 0 (distance.getLastD 0) ds with
  | .error e => .error e
  | .ok s =>
    match cubicSplineFit mk distance points bc_type with
    | .ok cs => .ok (cs, s)
    | .error (.valueError e) => .error (.valueError (e ++ seq_hint))
    | .error e => .error e

/-- Two-argument arctangent, the semantics of math.atan2 / np.arctan2 on
real (non-signed-zero) inputs. -/
def atan2 (y x : ℝ) : ℝ :=
  if 0 < x then Real.arctan (y / x)
  else if x < 0 ∧ 0 ≤ y then Real.arctan (y / x) + Real.pi
  else if x < 0 ∧ y < 0 then Real.arctan (y / x) - Real.pi
  else if x = 0 ∧ 0 < y then Real.pi / 2
  else if x = 0 ∧ y < 0 then -(Real.pi / 2)
  else 0

/-- Embedding of generate_cubic_spline from src/tools.py: fit the
interpolant, evaluate its first and second derivatives at the resample
points, and derive heading and signed curvature. -/
def generate_cubic_spline (mk : List ℝ → List (ℝ × ℝ) → String → SplineFn)
    (x y : List ℝ) (ds : ℝ) (bc_type : String) :
    Except PyError (List ℝ × List ℝ × List ℝ × List ℝ) :=
  match initialise_cubic_spline mk x y ds bc_type with
  | .error e => .error e
  | .ok (cs, s) =>
    let d1 := s.map cs.deriv1
    let yaw := d1.map fun p => atan2 p.2 p.1
    let d2 := s.map cs.deriv2
    let curvature := List.zipWith
      (fun q p => (q.2 * p.1 - q.1 * p.2) / ((p.1 * p.1 + p.2 * p.2) ^ (1.5 : ℝ))) d2 d1
    let c := s.map cs.eval
    .ok (c.map Prod.fst, c.map Prod.snd, yaw, curvature)

/-- Embedding of get_rotation_matrix from src/tools.py: the 2x2 matrix
((cos, sin), (-sin, cos)), stored as a pair of rows, meant to multiply a
row vector on the right. -/
def get_rotation_matrix (angle : ℝ) : (ℝ × ℝ) × (ℝ × ℝ) :=
  ((Real.cos angle, Real.sin angle), (-Real.sin angle, Real.cos angle))

/-- Row-vector-times-matrix product, the meaning of point.dot(m) (and of
point @ m) for a single 2-d point in the source. -/
def vecMatMul (p : ℝ × ℝ) (m : (ℝ × ℝ) × (ℝ × ℝ)) : ℝ × ℝ :=
  (p.1 * m.1.1 + p.2 * m.2.1, p.1 * m.1.2 + p.2 * m.2.2)

/-- Componentwise translation of a 2-d point. -/
def translate (p t : ℝ × ℝ) : ℝ × ℝ := (p.1 + t.1, p.2 + t.2)

namespace CarParameters

/-- Vehicle length in metres (src/description.py, class CarParameters). -/
def length : ℝ := 4.97

/-- Vehicle width in metres. -/
def width : ℝ := 1.964

/-- Tire diameter in metres. -/
def tire_diameter : ℝ := 0.4826

/-- Tire width in metres. -/
def tire_width : ℝ := 0.265

/-- Axle track in metres. -/
def axle_track : ℝ := 1.7

/-- Wheelbase in metres. -/
def wheelbase : ℝ := 2.96

/-- Rear overhang, derived: 0.5 * (length - wheelbase). -/
def rear_overhang : ℝ := 0.5 * (length - wheelbase)

/-- Fraction of the wheelbase from the rear axle to the centre of gravity. -/
def l_ : ℝ := 0.5

/-- Rear-axle-to-CG distance: l_ * wheelbase. -/
def l_r : ℝ := l_ * wheelbase

/-- CG-to-front-axle distance: l_ * wheelbase. -/
def l_f : ℝ := l_ * wheelbase

/-- Maximum steering angle, np.radians(33). -/
def max_steer : ℝ := 33 * Real.pi / 180

/-- Maximum velocity. -/
def max_velocity : ℝ := 5

end CarParameters

/-- State of a CarDescription instance: the shape constants computed by the
constructor, plus the pose cache (x, y, yaw_vector) written by plot_car.
The source initialises x and y to None and yaw_vector to an uninitialised
2x2 array; the embedding initialises them to zeroes, which is immaterial
because plot_car overwrites all three before any read. -/
structure CarDescription where
  outlines : List (ℝ × ℝ)
  rear_right_wheel : List (ℝ × ℝ)
  rear_left_wheel : List (ℝ × ℝ)
  fr_wheel_center : ℝ × ℝ
  fl_wheel_center : ℝ × ℝ
  fr_wheel_origin : List (ℝ × ℝ)
  fl_wheel_origin : List (ℝ × ℝ)
  x : ℝ
  y : ℝ
  yaw_vector : (ℝ × ℝ) × (ℝ × ℝ)

/-- The get_face_center lambda of the constructor: midpoint of the first
and third vertices of a wheel polygon. -/
def get_face_center (vertices : List (ℝ × ℝ)) : ℝ × ℝ :=
  (0.5 * ((vertices.getD 0 (0, 0)).1 + (vertices.getD 2 (0, 0)).1),
   0.5 * ((vertices.getD 0 (0, 0)).2 + (vertices.getD 2 (0, 0)).2))

/-- Embedding of CarDescription.__init__ from src/description.py: the body
outline and the four wheel polygons in the rear-axle frame, each closed by
repeating its first vertex, with the front wheels re-expressed relative to
their face centers. -/
def CarDescription.init : CarDescription :=
  let rear_axle_to_front_bumper := CarParameters.length - CarParameters.rear_overhang
  let centerline_to_wheel_centre := 0.5 * CarParameters.axle_track
  let centerline_to_side := 0.5 * CarParameters.width
  let vehicle_vertices : List (ℝ × ℝ) :=
    [(-CarParameters.rear_overhang, centerline_to_side),
     (rear_axle_to_front_bumper, centerline_to_side),
     (rear_axle_to_front_bumper, -centerline_to_side),
     (-CarParameters.rear_overhang, -centerline_to_side)]
  let half_tyre_width := 0.5 * CarParameters.tire_width
  let centerline_to_inwards_rim := centerline_to_wheel_centre - half_tyre_width
  let centerline_to_outwards_rim := centerline_to_wheel_centre + half_tyre_width
  let wheel_vertices : List (ℝ × ℝ) :=
    [(-CarParameters.tire_diameter, -centerline_to_inwards_rim),
     (CarParameters.tire_diameter, -centerline_to_inwards_rim),
     (CarParameters.tire_diameter, -centerline_to_outwards_rim),
     (-CarParameters.tire_diameter, -centerline_to_outwards_rim)]
  let outlines := vehicle_vertices ++ [vehicle_vertices.getD 0 (0, 0)]
  let rear_right_wheel := wheel_vertices ++ [wheel_vertices.getD 0 (0, 0)]
  let rear_left_wheel := rear_right_wheel.map fun p => (p.1, -p.2)
  let front_left_wheel := rear_left_wheel.map fun p => (p.1 + CarParameters.wheelbase, p.2)
  let front_right_wheel := rear_right_wheel.map fun p => (p.1 + CarParameters.wheelbase, p.2)
  let fr_wheel_center := get_face_center front_right_wheel
  let fl_wheel_center := get_face_center front_left_wheel
  let fr_wheel_origin := front_right_wheel.map fun p =>
    (p.1 - fr_wheel_center.1, p.2 - fr_wheel_center.2)
  let fl_wheel_origin := front_left_wheel.map fun p =>
    (p.1 - fl_wheel_center.1, p.2 - fl_wheel_center.2)
  { outlines := outlines
    rear_right_wheel := rear_right_wheel
    rear_left_wheel := rear_left_wheel
    fr_wheel_center := fr_wheel_center
    fl_wheel_center := fl_wheel_center
    fr_wheel_origin := fr_wheel_origin
    fl_wheel_origin := fl_wheel_origin
    x := 0
    y := 0
    yaw_vector := ((0, 0), (0, 0)) }

/-- Embedding of CarDescription.transform: rotate each vertex by the cached
yaw matrix (row-vector convention, point.dot(m)) and translate by the
cached position.  The source then transposes the vertex array for
matplotlib; the transpose is purely representational and the embedding
keeps the list-of-points view. -/
def CarDescription.transform (self : CarDescription) (poly : List (ℝ × ℝ)) : List (ℝ × ℝ) :=
  poly.map fun p => translate (vecMatMul p self.yaw_vector) (self.x, self.y)

/-- Embedding of CarDescription.frenet_to_cartesian from src/description.py:
hardcoded circular path of radius 50; the receiver is unused by the body. -/
def CarDescription.frenet_to_cartesian (self : CarDescription)
    (x_road : ℝ × ℝ × ℝ × ℝ × ℝ) : ℝ × ℝ × ℝ × ℝ × ℝ :=
  match x_road with
  | (s, e, mu, v, d) =>
    let r : ℝ := 50
    let yaw := mu + (Real.pi / 2 + s / r)
    let xy0 := (r * Real.cos (s / r), r * Real.sin (s / r))
    let xy1 := (xy0.1 + e * Real.cos (Real.pi + s / r), xy0.2 + e * Real.sin (Real.pi + s / r))
    let xy2 := (xy1.1 + CarParameters.l_r * Real.cos yaw, xy1.2 + CarParameters.l_r * Real.sin yaw)
    (xy2.1, xy2.2, v, yaw, d)

/-- Embedding of CarDescription.plot_car from src/description.py.  The
source mutates self.x, self.y and self.yaw_vector; the embedding returns
the updated instance alongside the 7-tuple the method returns. -/
def CarDescription.plot_car (self : CarDescription) (x_road : ℝ × ℝ × ℝ × ℝ × ℝ) :
    CarDescription ×
      (ℝ × ℝ × List (ℝ × ℝ) × List (ℝ × ℝ) × List (ℝ × ℝ) × List (ℝ × ℝ) × List (ℝ × ℝ)) :=
  match self.frenet_to_cartesian x_road with
  | (x, y, _, yaw, steer) =>
    let yaw_vector := get_rotation_matrix yaw
    let steer_vector := get_rotation_matrix steer
    let front_right_wheel := self.fr_wheel_origin.map fun p => vecMatMul p steer_vector
    let front_left_wheel := self.fl_wheel_origin.map fun p => vecMatMul p steer_vector
    let front_right_wheel := front_right_wheel.map fun p => translate p self.fr_wheel_center
    let front_left_wheel := front_left_wheel.map fun p => translate p self.fl_wheel_center
    let self1 : CarDescription := { self with x := x, y := y, yaw_vector := yaw_vector }
    let outlines := self1.transform self1.outlines
    let rear_right_wheel := self1.transform self1.rear_right_wheel
    let rear_left_wheel := self1.transform self1.rear_left_wheel
    let front_right_wheel := self1.transform front_right_wheel
    let front_left_wheel := self1.transform front_left_wheel
    (self1, (x, y, outlines, front_right_wheel, rear_right_wheel, front_left_wheel, rear_left_wheel))

/-- Constant interpolant, used to instantiate the abstract spline-fit
parameter in concrete witnesses. -/
def trivSpline : SplineFn :=
  { eval := fun _ => (0, 0), deriv1 := fun _ => (0, 0), deriv2 := fun _ => (0, 0) }

/-- Spline-fit oracle returning the constant interpolant. -/
def mkTriv : List ℝ → List (ℝ × ℝ) → String → SplineFn := fun _ _ _ => trivSpline

/-- A closed polygon: a nonempty vertex list whose first and last vertices
coincide. -/
def closed_poly (l : List (ℝ × ℝ)) : Prop := l ≠ [] ∧ l.head? = l.getLast?

theorem cumsumFrom_length (acc : ℝ) (l : List ℝ) : (cumsumFrom acc l).length = l.length := by
  induction l generalizing acc with
  | nil => rfl
  | cons a t ih => simp [cumsumFrom, ih]

/-- Adjacent entries of a prefix-sum list differ by the corresponding
summand. -/
theorem cons_cumsumFrom_getD (acc : ℝ) (l : List ℝ) (j : ℕ) (h : j < l.length) :
    (acc :: cumsumFrom acc l).getD (j + 1) 0
      = (acc :: cumsumFrom acc l).getD j 0 + l.getD j 0 := by
  induction l generalizing acc j with
  | nil => simp at h
  | cons a t ih =>
    cases j with
    | zero => simp [cumsumFrom]
    | succ j =>
      have ht : j < t.length := by simpa using h
      simp only [cumsumFrom, List.getD_cons_succ]
      exact ih (acc + a) j ht

theorem ediff1d_length (x : List ℝ) : (ediff1d x).length = x.length - 1 := by
  simp [ediff1d, List.length_zip, List.length_tail]

theorem ediff1d_getD (x : List ℝ) (i : ℕ) (h : i + 1 < x.length) :
    (ediff1d x).getD i 0 = x.getD (i + 1) 0 - x.getD i 0 := by
  have hz : i < (x.zip x.tail).length := by
    simp only [List.length_zip, List.length_tail]
    omega
  rw [ediff1d, List.getD_eq_getElem _ _ (by simpa using hz), List.getElem_map,
    List.getElem_zip, List.getElem_tail, List.getD_eq_getElem _ _ h,
    List.getD_eq_getElem _ _ (by omega : i < x.length)]

theorem zipWith_hypot_getD (a b : List ℝ) (i : ℕ) (h1 : i < a.length) (h2 : i < b.length) :
    (List.zipWith hypot a b).getD i 0 = hypot (a.getD i 0) (b.getD i 0) := by
  rw [List.getD_eq_getElem _ _ (by simp [List.length_zipWith]; omega),
    List.getElem_zipWith, List.getD_eq_getElem _ _ h1, List.getD_eq_getElem _ _ h2]

theorem hypot_zero : hypot 0 0 = 0 := by simp [hypot]

theorem hypot_of_nonneg (a : ℝ) (h : 0 ≤ a) : hypot a 0 = a := by
  rw [hypot]
  simpa using Real.sqrt_sq h

/-- C2: for every constructed curve, the heading array is exactly the
two-argument arctangent of the first-derivative components of the
interpolant at each sample, and the curvature array is exactly
(ddy*dx - ddx*dy) / (dx^2 + dy^2)^1.5 of the first- and second-derivative
components of the interpolant at each sample. -/
theorem generate_yaw_curvature (mk : List ℝ → List (ℝ × ℝ) → String → SplineFn)
    (x y : List ℝ) (ds : ℝ) (bc : String) (cs : SplineFn) (s cx cy yaw k : List ℝ)
    (hinit : initialise_cubic_spline mk x y ds bc = .ok (cs, s))
    (hgen : generate_cubic_spline mk x y ds bc = .ok (cx, cy, yaw, k)) :
    yaw = s.map (fun t => atan2 (cs.deriv1 t).2 (cs.deriv1 t).1) ∧
    k = s.map (fun t =>
      ((cs.deriv2 t).2 * (cs.deriv1 t).1 - (cs.deriv2 t).1 * (cs.deriv1 t).2) /
        (((cs.deriv1 t).1 * (cs.deriv1 t).1 + (cs.deriv1 t).2 * (cs.deriv1 t).2) ^ (1.5 : ℝ))) := by
  unfold generate_cubic_spline at hgen
  rw [hinit] at hgen
  simp only [Except.ok.injEq, Prod.mk.injEq] at hgen
  obtain ⟨-, -, h3, h4⟩ := hgen
  constructor
  · rw [← h3, List.map_map]
    rfl
  · rw [← h4, List.zipWith_map, List.zipWith_same]

/-- Evaluation of the Frenet transform at the state (0, 0, 0, 0, 0). -/
theorem frenet_zero_eval :
    CarDescription.init.frenet_to_cartesian (0, 0, 0, 0, 0)
      = (50, 37 / 25, 0, Real.pi / 2, 0) := by
  simp [CarDescription.frenet_to_cartesian, CarParameters.l_r, CarParameters.l_,
    CarParameters.wheelbase]
  norm_num

/-- C1: for every path-relative state (s, e, mu, v, d) and every instance,
frenet_to_cartesian returns the 5-tuple (x, y, v, yaw, d) with
yaw = mu + (pi/2 + s/r) and (x, y) = r*(cos(s/r), sin(s/r)) +
e*(cos(pi + s/r), sin(pi + s/r)) + l_r*(cos yaw, sin yaw) for the fixed
radius r = 50, with v and d passed through unchanged. -/
theorem frenet_to_cartesian_formula (c : CarDescription) (s e mu v d : ℝ) :
    c.frenet_to_cartesian (s, e, mu, v, d) =
      (50 * Real.cos (s / 50) + e * Real.cos (Real.pi + s / 50)
         + CarParameters.l_r * Real.cos (mu + (Real.pi / 2 + s / 50)),
       50 * Real.sin (s / 50) + e * Real.sin (Real.pi + s / 50)
         + CarParameters.l_r * Real.sin (mu + (Real.pi / 2 + s / 50)),
       v, mu + (Real.pi / 2 + s / 50), d) := rfl

/-- C10: frenet_to_cartesian is a pure function of its state tuple alone:
its value is the same on any two instances, also after any prior sequence
of plot_car calls on either of them; no instance field is read or written
and no path object is consulted (the path radius is the fixed constant 50,
see the C1 theorem). -/
theorem frenet_to_cartesian_pure (c₁ c₂ : CarDescription)
    (states : List (ℝ × ℝ × ℝ × ℝ × ℝ)) (st : ℝ × ℝ × ℝ × ℝ × ℝ) :
    (states.foldl (fun c q => (c.plot_car q).1) c₁).frenet_to_cartesian st
      = c₂.frenet_to_cartesian st := rfl

/-- C7: plot_car leaves every stored shape constant (body outline, rear
wheel polygons, front wheel origin-relative polygons and face centers)
unchanged; only the cached pose fields x and y and the yaw rotation matrix
are overwritten, with the values derived from the Frenet transform of the
argument state. -/
theorem plot_car_frame (c : CarDescription) (s e mu v d : ℝ) :
    ((c.plot_car (s, e, mu, v, d)).1.outlines = c.outlines ∧
     (c.plot_car (s, e, mu, v, d)).1.rear_right_wheel = c.rear_right_wheel ∧
     (c.plot_car (s, e, mu, v, d)).1.rear_left_wheel = c.rear_left_wheel ∧
     (c.plot_car (s, e, mu, v, d)).1.fr_wheel_center = c.fr_wheel_center ∧
     (c.plot_car (s, e, mu, v, d)).1.fl_wheel_center = c.fl_wheel_center ∧
     (c.plot_car (s, e, mu, v, d)).1.fr_wheel_origin = c.fr_wheel_origin ∧
     (c.plot_car (s, e, mu, v, d)).1.fl_wheel_origin = c.fl_wheel_origin) ∧
    ((c.plot_car (s, e, mu, v, d)).1.x = (c.frenet_to_cartesian (s, e, mu, v, d)).1 ∧
     (c.plot_car (s, e, mu, v, d)).1.y = (c.frenet_to_cartesian (s, e, mu, v, d)).2.1 ∧
     (c.plot_car (s, e, mu, v, d)).1.yaw_vector =
       get_rotation_matrix ((c.frenet_to_cartesian (s, e, mu, v, d)).2.2.2.1)) :=
  ⟨⟨rfl, rfl, rfl, rfl, rfl, rfl, rfl⟩, rfl, rfl, rfl⟩

/-- C3: plot_car composes the transforms in the fixed order steer pivot,
then body rotation, then translation: each front wheel polygon, expressed
relative to its face center, is right-multiplied by R(steer) and the face
center is added back; then every polygon (body outline, both rear wheels
as stored, both front wheels post-steering) is right-multiplied by
R(yaw) = ((cos, sin), (-sin, cos)) in the row-vector convention and
translated by (x, y). -/
theorem plot_car_transform_order (c : CarDescription) (s e mu v d : ℝ) :
    let pose := c.frenet_to_cartesian (s, e, mu, v, d)
    let x := pose.1
    let y := pose.2.1
    let yaw := pose.2.2.2.1
    let steer := pose.2.2.2.2
    let R := get_rotation_matrix yaw
    let S := get_rotation_matrix steer
    R = ((Real.cos yaw, Real.sin yaw), (-Real.sin yaw, Real.cos yaw)) ∧
    (c.plot_car (s, e, mu, v, d)).2 =
      (x, y,
       c.outlines.map (fun p => translate (vecMatMul p R) (x, y)),
       c.fr_wheel_origin.map (fun p =>
         translate (vecMatMul (translate (vecMatMul p S) c.fr_wheel_center) R) (x, y)),
       c.rear_right_wheel.map (fun p => translate (vecMatMul p R) (x, y)),
       c.fl_wheel_origin.map (fun p =>
         translate (vecMatMul (translate (vecMatMul p S) c.fl_wheel_center) R) (x, y)),
       c.rear_left_wheel.map (fun p => translate (vecMatMul p R) (x, y))) := by
  refine ⟨rfl, ?_⟩
  simp only [CarDescription.plot_car, CarDescription.frenet_to_cartesian,
    CarDescription.transform, List.map_map]
  rfl

/-- C9: for every state, each of the five polygons returned by plot_car on
the constructed car description is an ordered vertex list whose first and
last vertices are identical. -/
theorem plot_car_closed_polys (s e mu v d : ℝ) :
    closed_poly ((CarDescription.init.plot_car (s, e, mu, v, d)).2.2.2.1) ∧
    closed_poly ((CarDescription.init.plot_car (s, e, mu, v, d)).2.2.2.2.1) ∧
    closed_poly ((CarDescription.init.plot_car (s, e, mu, v, d)).2.2.2.2.2.1) ∧
    closed_poly ((CarDescription.init.plot_car (s, e, mu, v, d)).2.2.2.2.2.2.1) ∧
    closed_poly ((CarDescription.init.plot_car (s, e, mu, v, d)).2.2.2.2.2.2.2) := by
  refine ⟨⟨?_, rfl⟩, ⟨?_, rfl⟩, ⟨?_, rfl⟩, ⟨?_, rfl⟩, ⟨?_, rfl⟩⟩ <;>
    simp [CarDescription.plot_car, CarDescription.init, CarDescription.transform,
      CarDescription.frenet_to_cartesian]

/-- C8 counterexample: with radius r = 50 and state (0, 0, 0, 0, 0) the
Frenet transform returns the position (50, 37/25) = (r, l_r), which is not
(r + l_r, 0): both coordinates differ from the claimed point by
l_r = 1.48 > 1, beyond any reasonable reading of approximately. -/
theorem frenet_concrete_cex :
    ((CarDescription.init.frenet_to_cartesian (0, 0, 0, 0, 0)).1,
     (CarDescription.init.frenet_to_cartesian (0, 0, 0, 0, 0)).2.1) = ((50 : ℝ), 37 / 25) ∧
    CarParameters.l_r = 37 / 25 ∧
    ((50 : ℝ), (37 / 25 : ℝ)) ≠ ((50 : ℝ) + CarParameters.l_r, (0 : ℝ)) ∧
    |(50 : ℝ) - (50 + CarParameters.l_r)| > 1 ∧ |(37 / 25 : ℝ) - 0| > 1 := by
  have hl : CarParameters.l_r = 37 / 25 := by
    norm_num [CarParameters.l_r, CarParameters.l_, CarParameters.wheelbase]
  refine ⟨?_, hl, ?_, ?_, ?_⟩
  · rw [frenet_zero_eval]
  · rw [hl]; intro h; have := congrArg Prod.snd h; norm_num at this
  · rw [hl, show (50 : ℝ) - (50 + 37 / 25) = -(37 / 25) by ring, abs_neg,
      abs_of_nonneg (by norm_num : (0 : ℝ) ≤ 37 / 25)]
    norm_num
  · rw [show (37 / 25 : ℝ) - 0 = 37 / 25 by ring,
      abs_of_nonneg (by norm_num : (0 : ℝ) ≤ 37 / 25)]
    norm_num

/-- C8 amended: with radius r = 50 and state (0, 0, 0, 0, 0) the world
position returned by the Frenet transform is exactly (r, l_r): the point
(r, 0) on the circle plus the rear-axle offset l_r along the heading
pi/2. -/
theorem frenet_concrete_amended :
    ((CarDescription.init.frenet_to_cartesian (0, 0, 0, 0, 0)).1,
     (CarDescription.init.frenet_to_cartesian (0, 0, 0, 0, 0)).2.1)
      = ((50 : ℝ), CarParameters.l_r) := by
  rw [frenet_zero_eval]
  norm_num [CarParameters.l_r, CarParameters.l_, CarParameters.wheelbase]

theorem atan2_zero_zero : atan2 0 0 = 0 := by
  simp [atan2]

theorem distance_eval : distance_list [0, 2] [0, 0] = [0, 2] := by
  have h2 : hypot 2 0 = 2 := hypot_of_nonneg 2 (by norm_num)
  simp [distance_list, ediff1d, cumsum, cumsumFrom, h2]

theorem arange_eval : arange 0 2 1 = .ok [0, 1] := by
  have hc : ⌈((2 : ℝ) - 0) / 1⌉ = 2 := by
    rw [show ((2 : ℝ) - 0) / 1 = ((2 : ℤ) : ℝ) by norm_num, Int.ceil_intCast]
  rw [arange, if_neg one_ne_zero, hc]
  rw [show Int.toNat 2 = 2 from rfl, show List.range 2 = [0, 1] from rfl]
  simp

theorem fit_eval (pts : List (ℝ × ℝ)) (bc : String) :
    cubicSplineFit mkTriv [0, 2] pts bc = .ok trivSpline := by
  have hch : List.Chain' (· < ·) [(0 : ℝ), 2] := by
    simp [List.chain'_cons]
  rw [cubicSplineFit, if_neg (by simp), if_neg (not_not_intro hch)]
  rfl

theorem init_eval :
    initialise_cubic_spline mkTriv [0, 2] [0, 0] 1 "natural" = .ok (trivSpline, [0, 1]) := by
  unfold initialise_cubic_spline
  rw [distance_eval]
  dsimp only
  rw [show ([(0 : ℝ), 2]).getLastD 0 = 2 from rfl, arange_eval]
  rw [fit_eval]

theorem gen_eval :
    generate_cubic_spline mkTriv [0, 2] [0, 0] 1 "natural"
      = .ok ([0, 0], [0, 0], [0, 0], [0, 0]) := by
  unfold generate_cubic_spline
  rw [init_eval]
  simp [trivSpline, atan2_zero_zero]

theorem total_chord_eval : total_chord [0, 2] [0, 0] = 2 := by
  rw [total_chord, distance_eval]
  rfl

/-- C2 witness: the heading and curvature relation evaluated on the
concrete curve through (0,0) and (2,0) with ds = 1 and the constant
interpolant oracle. -/
theorem generate_yaw_curvature_witness :
    (initialise_cubic_spline mkTriv [0, 2] [0, 0] 1 "natural" = .ok (trivSpline, [0, 1])) ∧
    (generate_cubic_spline mkTriv [0, 2] [0, 0] 1 "natural"
      = .ok ([0, 0], [0, 0], [0, 0], [0, 0])) ∧
    (([0, 0] : List ℝ)
        = ([0, 1] : List ℝ).map (fun t => atan2 (trivSpline.deriv1 t).2 (trivSpline.deriv1 t).1) ∧
     ([0, 0] : List ℝ)
        = ([0, 1] : List ℝ).map (fun t =>
            ((trivSpline.deriv2 t).2 * (trivSpline.deriv1 t).1
               - (trivSpline.deriv2 t).1 * (trivSpline.deriv1 t).2) /
              (((trivSpline.deriv1 t).1 * (trivSpline.deriv1 t).1
                  + (trivSpline.deriv1 t).2 * (trivSpline.deriv1 t).2) ^ (1.5 : ℝ)))) :=
  ⟨init_eval, gen_eval,
    generate_yaw_curvature mkTriv [0, 2] [0, 0] 1 "natural" trivSpline [0, 1]
      [0, 0] [0, 0] [0, 0] [0, 0] init_eval gen_eval⟩

/-- Inversion of a successful initialise_cubic_spline call with a nonzero
sampling interval: the resample array is the arange grid over the total
chord length, and the spline fit succeeded. -/
theorem initialise_ok_inversion (mk : List ℝ → List (ℝ × ℝ) → String → SplineFn)
    (x y : List ℝ) (ds : ℝ) (bc : String) (cs : SplineFn) (s : List ℝ)
    (hds : ds ≠ 0)
    (h : initialise_cubic_spline mk x y ds bc = .ok (cs, s)) :
    s = (List.range (⌈total_chord x y / ds⌉).toNat).map (fun j : ℕ => (j : ℝ) * ds) ∧
    cubicSplineFit mk (distance_list x y) (x.zip y) bc = .ok cs := by
  unfold initialise_cubic_spline at h
  dsimp only at h
  rw [arange, if_neg hds] at h
  dsimp only at h
  cases hfit : cubicSplineFit mk (distance_list x y) (x.zip y) bc with
  | ok cs0 =>
    rw [hfit] at h
    simp only [Except.ok.injEq, Prod.mk.injEq] at h
    obtain ⟨h1, h2⟩ := h
    subst h1
    refine ⟨?_, rfl⟩
    rw [← h2, total_chord]
    simp only [sub_zero, zero_add]
  | error e =>
    rw [hfit] at h
    cases e <;> simp at h

/-- C4 (amended): for every non-degenerate waypoint sequence and every
ds > 0 smaller than the total chord length, the constructed arrays x, y,
yaw, k all have the length of the resample array, and that common length
equals ceil(total_chord_length / ds) (not floor: the final fractional
segment contributes a sample at the last multiple of ds strictly below the
total); the resample parameters are 0, ds, 2ds, ... all strictly below the
total chord length. -/
theorem curve_sample_count (mk : List ℝ → List (ℝ × ℝ) → String → SplineFn)
    (x y : List ℝ) (ds : ℝ) (bc : String)
    (cs : SplineFn) (s cx cy yaw k : List ℝ)
    (hds : 0 < ds) (hlt : ds < total_chord x y)
    (hinit : initialise_cubic_spline mk x y ds bc = .ok (cs, s))
    (hgen : generate_cubic_spline mk x y ds bc = .ok (cx, cy, yaw, k)) :
    cx.length = s.length ∧ cy.length = s.length ∧ yaw.length = s.length ∧
    k.length = s.length ∧
    s.length = (⌈total_chord x y / ds⌉).toNat ∧
    s = (List.range (⌈total_chord x y / ds⌉).toNat).map (fun j : ℕ => (j : ℝ) * ds) ∧
    ∀ t ∈ s, t < total_chord x y := by
  obtain ⟨hs, -⟩ := initialise_ok_inversion mk x y ds bc cs s (ne_of_gt hds) hinit
  unfold generate_cubic_spline at hgen
  rw [hinit] at hgen
  simp only [Except.ok.injEq, Prod.mk.injEq] at hgen
  obtain ⟨h1, h2, h3, h4⟩ := hgen
  refine ⟨?_, ?_, ?_, ?_, ?_, hs, ?_⟩
  · rw [← h1]; simp
  · rw [← h2]; simp
  · rw [← h3]; simp
  · rw [← h4]; simp
  · rw [hs, List.length_map, List.length_range]
  · rw [hs]
    intro t ht
    simp only [List.mem_map, List.mem_range] at ht
    obtain ⟨j, hj, rfl⟩ := ht
    have hjz : (j : ℤ) < ⌈total_chord x y / ds⌉ := Int.lt_toNat.mp hj
    have hjr : (j : ℝ) < total_chord x y / ds := by exact_mod_cast Int.lt_ceil.mp hjz
    calc (j : ℝ) * ds < (total_chord x y / ds) * ds := mul_lt_mul_of_pos_right hjr hds
    _ = total_chord x y := div_mul_cancel₀ _ (ne_of_gt hds)

/-- C4 witness: the curve through (0,0) and (2,0) with ds = 1 under the
constant interpolant oracle. -/
theorem curve_sample_count_witness :
    (0 : ℝ) < 1 ∧ (1 : ℝ) < total_chord [0, 2] [0, 0] ∧
    initialise_cubic_spline mkTriv [0, 2] [0, 0] 1 "natural" = .ok (trivSpline, [0, 1]) ∧
    generate_cubic_spline mkTriv [0, 2] [0, 0] 1 "natural"
      = .ok ([0, 0], [0, 0], [0, 0], [0, 0]) ∧
    (([0, 0] : List ℝ).length = ([0, 1] : List ℝ).length ∧
     ([0, 0] : List ℝ).length = ([0, 1] : List ℝ).length ∧
     ([0, 0] : List ℝ).length = ([0, 1] : List ℝ).length ∧
     ([0, 0] : List ℝ).length = ([0, 1] : List ℝ).length ∧
     ([0, 1] : List ℝ).length = (⌈total_chord [0, 2] [0, 0] / 1⌉).toNat ∧
     ([0, 1] : List ℝ)
       = (List.range (⌈total_chord [0, 2] [0, 0] / 1⌉).toNat).map (fun j : ℕ => (j : ℝ) * 1) ∧
     ∀ t ∈ ([0, 1] : List ℝ), t < total_chord [0, 2] [0, 0]) :=
  ⟨by norm_num, by rw [total_chord_eval]; norm_num, init_eval, gen_eval,
    curve_sample_count mkTriv [0, 2] [0, 0] 1 "natural" trivSpline [0, 1]
      [0, 0] [0, 0] [0, 0] [0, 0] (by norm_num) (by rw [total_chord_eval]; norm_num)
      init_eval gen_eval⟩

theorem distance_eval_half : distance_list [0, 5 / 2] [0, 0] = [0, 5 / 2] := by
  have h2 : hypot (5 / 2) 0 = 5 / 2 := hypot_of_nonneg (5 / 2) (by norm_num)
  simp [distance_list, ediff1d, cumsum, cumsumFrom, h2]

theorem arange_eval_half : arange 0 (5 / 2) 1 = .ok [0, 1, 2] := by
  have hc : ⌈((5 / 2 : ℝ) - 0) / 1⌉ = 3 := by
    rw [Int.ceil_eq_iff]
    constructor <;> norm_num
  rw [arange, if_neg one_ne_zero, hc]
  rw [show Int.toNat 3 = 3 from rfl, show List.range 3 = [0, 1, 2] from rfl]
  simp

theorem fit_eval_half (pts : List (ℝ × ℝ)) (bc : String) :
    cubicSplineFit mkTriv [0, 5 / 2] pts bc = .ok trivSpline := by
  have hch : List.Chain' (· < ·) [(0 : ℝ), 5 / 2] := by
    simp [List.chain'_cons]
  rw [cubicSplineFit, if_neg (by simp), if_neg (not_not_intro hch)]
  rfl

theorem init_eval_half :
    initialise_cubic_spline mkTriv [0, 5 / 2] [0, 0] 1 "natural"
      = .ok (trivSpline, [0, 1, 2]) := by
  unfold initialise_cubic_spline
  rw [distance_eval_half]
  dsimp only
  rw [show ([(0 : ℝ), 5 / 2]).getLastD 0 = 5 / 2 from rfl, arange_eval_half]
  rw [fit_eval_half]

theorem gen_eval_half :
    generate_cubic_spline mkTriv [0, 5 / 2] [0, 0] 1 "natural"
      = .ok ([0, 0, 0], [0, 0, 0], [0, 0, 0], [0, 0, 0]) := by
  unfold generate_cubic_spline
  rw [init_eval_half]
  simp [trivSpline, atan2_zero_zero]

/-- C4 counterexample: the curve through (0,0) and (5/2,0) with ds = 1 has
total chord length 5/2 and produces arrays of length 3, while
floor(5/2 / 1) = 2: the common length is not floor(total chord / ds). -/
theorem curve_sample_count_cex :
    total_chord [0, (5 : ℝ) / 2] [0, 0] = 5 / 2 ∧
    generate_cubic_spline mkTriv [0, 5 / 2] [0, 0] 1 "natural"
      = .ok ([0, 0, 0], [0, 0, 0], [0, 0, 0], [0, 0, 0]) ∧
    ⌊(5 / 2 : ℝ) / 1⌋ = 2 ∧
    (([0, 0, 0] : List ℝ).length : ℤ) ≠ ⌊(5 / 2 : ℝ) / 1⌋ := by
  have hfl : ⌊(5 / 2 : ℝ) / 1⌋ = 2 := by
    rw [Int.floor_eq_iff]
    constructor <;> norm_num
  refine ⟨?_, gen_eval_half, hfl, ?_⟩
  · rw [total_chord, distance_eval_half]; rfl
  · rw [hfl]; norm_num

/-- C5: for every waypoint list with two identical consecutive points (and
any nonzero sampling interval, so that resampling itself does not raise
first), curve construction returns the degenerate-input ValueError whose
message carries the consecutive-duplicate hint, and no result arrays are
returned. -/
theorem init_duplicate_error (mk : List ℝ → List (ℝ × ℝ) → String → SplineFn)
    (x y : List ℝ) (ds : ℝ) (bc : String) (i : ℕ)
    (hds : ds ≠ 0) (hlen : y.length = x.length) (hi : i + 1 < x.length)
    (hx : x.getD (i + 1) 0 = x.getD i 0) (hy : y.getD (i + 1) 0 = y.getD i 0) :
    initialise_cubic_spline mk x y ds bc
      = .error (.valueError ("x must be strictly increasing sequence." ++ seq_hint)) := by
  have hdl : (List.zipWith hypot (ediff1d x) (ediff1d y)).length = x.length - 1 := by
    simp [List.length_zipWith, ediff1d_length, hlen]
  have hlen3 : (distance_list x y).length = x.length := by
    have h0 : (distance_list x y).length
        = (List.zipWith hypot (ediff1d x) (ediff1d y)).length + 1 := by
      simp [distance_list, cumsum, cumsumFrom_length]
    rw [h0, hdl]
    omega
  have hdi : (List.zipWith hypot (ediff1d x) (ediff1d y)).getD i 0 = 0 := by
    rw [zipWith_hypot_getD _ _ i (by rw [ediff1d_length]; omega)
        (by rw [ediff1d_length]; omega),
      ediff1d_getD x i hi, ediff1d_getD y i (by omega), hx, hy]
    simp [hypot]
  have hstep : (distance_list x y).getD (i + 1) 0 = (distance_list x y).getD i 0 := by
    have hc := cons_cumsumFrom_getD 0 (List.zipWith hypot (ediff1d x) (ediff1d y)) i
      (by omega)
    rw [hdi, add_zero] at hc
    exact hc
  have hnot : ¬ List.Chain' (· < ·) (distance_list x y) := by
    intro hch
    rw [List.chain'_iff_get] at hch
    have hlt := hch i (by omega)
    have hgg : (distance_list x y).getD i 0 < (distance_list x y).getD (i + 1) 0 := by
      rw [List.getD_eq_getElem _ _ (by omega), List.getD_eq_getElem _ _ (by omega)]
      simpa [List.get_eq_getElem] using hlt
    rw [hstep] at hgg
    exact lt_irrefl _ hgg
  unfold initialise_cubic_spline
  dsimp only
  rw [arange, if_neg hds]
  rw [cubicSplineFit, if_neg (by omega : ¬ (distance_list x y).length < 2), if_pos hnot]

/-- C5 witness: the waypoint list ((0,0), (0,0)) with ds = 1 produces the
degenerate-input error. -/
theorem init_duplicate_error_witness :
    ((1 : ℝ) ≠ 0 ∧ ([0, 0] : List ℝ).length = ([0, 0] : List ℝ).length ∧
     0 + 1 < ([0, 0] : List ℝ).length ∧
     ([0, 0] : List ℝ).getD (0 + 1) 0 = ([0, 0] : List ℝ).getD 0 0 ∧
     ([0, 0] : List ℝ).getD (0 + 1) 0 = ([0, 0] : List ℝ).getD 0 0) ∧
    initialise_cubic_spline mkTriv [0, 0] [0, 0] 1 "natural"
      = .error (.valueError ("x must be strictly increasing sequence." ++ seq_hint)) :=
  ⟨⟨one_ne_zero, rfl, by norm_num, rfl, rfl⟩,
   init_duplicate_error mkTriv [0, 0] [0, 0] 1 "natural" 0 one_ne_zero rfl
     (by norm_num) rfl rfl⟩

/-- C6 (amended): a zero sampling interval makes construction raise the
division error from resampling; fewer than 2 waypoints (with a nonzero
sampling interval) makes the interpolant fit raise a ValueError, after the
distance and resample arrays have already been computed.  A negative
sampling interval raises nothing (see the counterexample). -/
theorem init_invalid_config (mk : List ℝ → List (ℝ × ℝ) → String → SplineFn)
    (x y : List ℝ) (ds : ℝ) (bc : String) :
    (ds = 0 → initialise_cubic_spline mk x y ds bc
        = .error (.zeroDivisionError "division by zero")) ∧
    (x.length < 2 → ds ≠ 0 → initialise_cubic_spline mk x y ds bc
        = .error (.valueError ("x must contain at least 2 elements." ++ seq_hint))) := by
  constructor
  · intro h
    subst h
    unfold initialise_cubic_spline
    dsimp only
    rw [arange, if_pos rfl]
  · intro hx hds
    have hed : ediff1d x = [] := by
      match x, hx with
      | [], _ => rfl
      | [a], _ => rfl
    have hdist : distance_list x y = [0] := by
      rw [distance_list, hed]
      rfl
    unfold initialise_cubic_spline
    dsimp only
    rw [hdist]
    rw [show ([(0 : ℝ)]).getLastD 0 = 0 from rfl]
    rw [arange, if_neg hds]
    rw [show ((0 : ℝ) - 0) / ds = 0 by ring, Int.ceil_zero]
    rw [show Int.toNat 0 = 0 from rfl, show List.range 0 = [] from rfl]
    rw [show (([] : List ℕ).map fun k : ℕ => (0 : ℝ) + (k : ℝ) * ds) = [] from rfl]
    rw [cubicSplineFit, if_pos (by simp)]

/-- C6 witness: construction with ds = 0, and construction with a single
waypoint, both raise. -/
theorem init_invalid_config_witness :
    ((0 : ℝ) = 0 ∧ initialise_cubic_spline mkTriv [0, 2] [0, 0] 0 "natural"
        = .error (.zeroDivisionError "division by zero")) ∧
    (([0] : List ℝ).length < 2 ∧ (1 : ℝ) ≠ 0 ∧
     initialise_cubic_spline mkTriv [0] [0] 1 "natural"
        = .error (.valueError ("x must contain at least 2 elements." ++ seq_hint))) :=
  ⟨⟨rfl, (init_invalid_config mkTriv [0, 2] [0, 0] 0 "natural").1 rfl⟩,
   ⟨by norm_num, one_ne_zero,
    (init_invalid_config mkTriv [0] [0] 1 "natural").2 (by norm_num) one_ne_zero⟩⟩

/-- C6 counterexample: with ds = -1 (non-positive) and a perfectly valid
two-point waypoint list, construction does not fail at all: it returns
successfully with an empty resample array, so "every call with ds <= 0
fails fast with an error" is false on the code. -/
theorem init_negative_ds_cex :
    (-1 : ℝ) ≤ 0 ∧
    initialise_cubic_spline mkTriv [0, 2] [0, 0] (-1) "natural"
      = .ok (trivSpline, []) := by
  refine ⟨by norm_num, ?_⟩
  unfold initialise_cubic_spline
  dsimp only
  rw [distance_eval]
  rw [show ([(0 : ℝ), 2]).getLastD 0 = 2 from rfl]
  rw [arange, if_neg (by norm_num : (-1 : ℝ) ≠ 0)]
  rw [show ((2 : ℝ) - 0) / (-1) = ((-2 : ℤ) : ℝ) by norm_num, Int.ceil_intCast]
  rw [show Int.toNat (-2) = 0 from rfl, show List.range 0 = [] from rfl]
  rw [show (([] : List ℕ).map fun k : ℕ => (0 : ℝ) + (k : ℝ) * (-1)) = [] from rfl]
  rw [fit_eval]

end

end KBM
